import Mathlib

set_option allowUnsafeReducibility true

attribute [semireducible] Rat.mul Rat.add Rat.sub Rat.inv Rat.ofScientific

/-- One row of the laps table (`laps_df`), with the fields `calculate_advanced_deg`
reads: `Driver`, `LapNumber`, `LapTime`, `PitInTime`, `PitOutTime`, `TrackStatus`,
`Compound`, `TyreLife`. Durations are modelled as exact rational seconds; a
nullable pandas value is an `Option`. -/
structure LapRow where
  driver : String
  lapNumber : ℚ
  lapTime : Option ℚ
  pitInTime : Option ℚ
  pitOutTime : Option ℚ
  trackStatus : String
  compound : String
  tyreLife : Option ℚ
  deriving DecidableEq, Repr

/-- One row of the results table (`results_df`): `Abbreviation` and `TeamName`. -/
structure ResultRow where
  abbreviation : String
  teamName : String
  deriving DecidableEq, Repr

/-- A lap after the left merge with `results_df[['Abbreviation', 'TeamName']]`:
`teamName = none` models the NaN produced for an unmatched `Driver`. -/
structure JoinedLap where
  lap : LapRow
  teamName : Option String
  deriving DecidableEq, Repr

def STARTING_FUEL_KG : ℚ := 110.0

def FUEL_BURN_RATE_KG_PER_LAP : ℚ := 1.6

def FUEL_EFFECT_SEC_PER_KG : ℚ := 0.03

def TRACK_EVO_EFFECT_SEC_PER_LAP : ℚ := 0.01

/-- The rows the left join produces for one lap row: one per results row whose
`Abbreviation` equals the lap's `Driver`, or a single row with NaN team when
none matches. -/
def joinOne (results : List ResultRow) (l : LapRow) : List JoinedLap :=
  match results.filter (fun r => r.abbreviation == l.driver) with
  | [] => [⟨l, none⟩]
  | ms => ms.map (fun r => ⟨l, some r.teamName⟩)

/-- The left join `pd.merge(laps_df, results_df[..], left_on='Driver',
right_on='Abbreviation', how='left')` of app.py lines 101-104: every lap row is
kept, in order, paired with each matching results row or with a NaN team. -/
def mergeLapsResults (laps : List LapRow) (results : List ResultRow) : List JoinedLap :=
  laps.flatMap (joinOne results)

/-- The clean-lap mask of app.py lines 105-108: `PitInTime.isna() &
PitOutTime.isna() & (TrackStatus == '1') & (LapNumber > 1)` followed by
`dropna(subset=['LapTime'])`. -/
def cleanPred (j : JoinedLap) : Bool :=
  j.lap.pitInTime.isNone && j.lap.pitOutTime.isNone &&
    (j.lap.trackStatus == "1") && decide ((1 : ℚ) < j.lap.lapNumber) &&
    j.lap.lapTime.isSome

def cleanLapsFrom (laps : List LapRow) (results : List ResultRow) : List JoinedLap :=
  (mergeLapsResults laps results).filter cleanPred

/-- `clean_laps['LapTimeSeconds'] = clean_laps['LapTime'].dt.total_seconds()`
(only read on rows that passed `dropna(subset=['LapTime'])`). -/
def lapTimeSeconds (l : LapRow) : ℚ :=
  l.lapTime.getD 0

/-- `FuelLoad_KG = STARTING_FUEL_KG - LapNumber * FUEL_BURN_RATE_KG_PER_LAP` (line 111). -/
def fuelLoadKG (lapNumber : ℚ) : ℚ :=
  STARTING_FUEL_KG - lapNumber * FUEL_BURN_RATE_KG_PER_LAP

/-- `FuelPenalty_sec = FuelLoad_KG * FUEL_EFFECT_SEC_PER_KG` (line 112). -/
def fuelPenaltySec (lapNumber : ℚ) : ℚ :=
  fuelLoadKG lapNumber * FUEL_EFFECT_SEC_PER_KG

/-- `TrackEvo_Gain_sec = (LapNumber - 1) * TRACK_EVO_EFFECT_SEC_PER_LAP` (line 113). -/
def trackEvoGainSec (lapNumber : ℚ) : ℚ :=
  (lapNumber - 1) * TRACK_EVO_EFFECT_SEC_PER_LAP

/-- `FullyCorrected_LapTimeSeconds = LapTimeSeconds - FuelPenalty_sec +
TrackEvo_Gain_sec` (lines 114-116). -/
def fullyCorrectedLapTimeSeconds (lapNumber lapTimeSec : ℚ) : ℚ :=
  lapTimeSec - fuelPenaltySec lapNumber + trackEvoGainSec lapNumber

def fullyCorrectedOf (l : LapRow) : ℚ :=
  fullyCorrectedLapTimeSeconds l.lapNumber (lapTimeSeconds l)

/-- Pandas elementwise equality against a group key: a NaN cell never equals the
key, and a NaN key (`team` can be NaN in `unique()`) matches nothing either,
because `NaN == NaN` is false in pandas. -/
def teamMatches : Option String → Option String → Bool
  | some a, some b => a == b
  | _, _ => false

/-- First-occurrence deduplication, the order `pandas.Series.unique` returns. -/
def uniqueFirstAux {α : Type} [DecidableEq α] : List α → List α → List α
  | [], _ => []
  | x :: xs, seen => if x ∈ seen then uniqueFirstAux xs seen else x :: uniqueFirstAux xs (x :: seen)

def uniqueFirst {α : Type} [DecidableEq α] (l : List α) : List α :=
  uniqueFirstAux l []

/-- The per-group subset of app.py lines 122-123: rows of `clean_laps` whose
`TeamName` equals `team` and `Compound` equals `compound`, then
`dropna(subset=['TyreLife', 'FullyCorrected_LapTimeSeconds'])` (the corrected
time is never NaN on a clean lap, so only `TyreLife` can drop rows). -/
def groupSubset (cl : List JoinedLap) (team : Option String) (comp : String) : List JoinedLap :=
  (cl.filter (fun j => teamMatches j.teamName team && (j.lap.compound == comp))).filter
    (fun j => j.lap.tyreLife.isSome)

/-- Slope of `sklearn.linear_model.LinearRegression().fit(X, y)` with one
feature and an intercept: the ordinary-least-squares slope
`(n*Σxy - Σx*Σy) / (n*Σx² - (Σx)²)`; rational division by zero yields `0`,
matching the zero coefficient least squares returns on a centered zero column. -/
def olsSlope (pts : List (ℚ × ℚ)) : ℚ :=
  let n : ℚ := pts.length
  let sx := (pts.map Prod.fst).sum
  let sy := (pts.map Prod.snd).sum
  let sxy := (pts.map (fun p => p.1 * p.2)).sum
  let sxx := (pts.map (fun p => p.1 * p.1)).sum
  (n * sxy - sx * sy) / (n * sxx - sx * sx)

/-- One entry appended to `deg_data` (lines 131-134), before the DataFrame
post-processing: the iterated team key (still nullable), the raw compound
string, the regression slope and the subset size. -/
structure DegRow where
  teamName : Option String
  compound : String
  degRate : ℚ
  lapsAnalyzed : ℕ
  deriving DecidableEq, Repr

/-- The body of the double loop (lines 122-134) for one `(team, compound)` pair:
the appended row when the subset is large enough, `none` otherwise. -/
def groupRow (cl : List JoinedLap) (team : Option String) (comp : String) : Option DegRow :=
  if 10 < (groupSubset cl team comp).length then
    some { teamName := team, compound := comp,
           degRate := olsSlope ((groupSubset cl team comp).map
             (fun j => (j.lap.tyreLife.getD 0, fullyCorrectedOf j.lap))),
           lapsAnalyzed := (groupSubset cl team comp).length }
  else none

/-- The double loop of lines 120-134: `for team in clean_laps['TeamName'].unique():
for compound in clean_laps['Compound'].unique(): ...`, appending a row per
sufficiently large group. -/
def degData (cl : List JoinedLap) : List DegRow :=
  (uniqueFirst (cl.map (fun j => j.teamName))).flatMap (fun team =>
    (uniqueFirst (cl.map (fun j => j.lap.compound))).filterMap (groupRow cl team))

def degDataOf (laps : List LapRow) (results : List ResultRow) : List DegRow :=
  degData (cleanLapsFrom laps results)

def compound_order : List String := ["SOFT", "MEDIUM", "HARD", "INTERMEDIATE", "WET"]

/-- `astype(CategoricalDtype(categories=compound_order))` on one cell: a value
outside the category list becomes NaN. -/
def castCompound (c : String) : Option String :=
  if c ∈ compound_order then some c else none

/-- An output row of the returned frame, after the `Compound` column has been
cast to the ordered categorical dtype on line 139. -/
structure DegOutRow where
  teamName : Option String
  compound : Option String
  degRate : ℚ
  lapsAnalyzed : ℕ
  deriving DecidableEq, Repr

def castRow (r : DegRow) : DegOutRow :=
  { teamName := r.teamName, compound := castCompound r.compound,
    degRate := r.degRate, lapsAnalyzed := r.lapsAnalyzed }

/-- Ordinal of a categorical `Compound` cell in the sort: the category code, NaN
sorted last (`na_position='last'`, the `sort_values` default). -/
def compoundRank : Option String → ℕ
  | some c => compound_order.indexOf c
  | none => compound_order.length

/-- Strict comparison of two characters by Unicode code point, the order Python
uses inside string comparison. -/
def charLt (c d : Char) : Prop :=
  c.toNat < d.toNat

instance : DecidableRel charLt := fun c d => Nat.decLt c.toNat d.toNat

theorem charLt_trichotomous (c d : Char) : charLt c d ∨ c = d ∨ charLt d c := by
  rcases Nat.lt_trichotomy c.toNat d.toNat with h | h | h
  · exact Or.inl h
  · exact Or.inr (Or.inl (Char.eq_of_val_eq (UInt32.ext h)))
  · exact Or.inr (Or.inr h)

instance : IsTrichotomous Char charLt := ⟨charLt_trichotomous⟩

instance : IsTrans Char charLt := ⟨fun _ _ _ h h2 => Nat.lt_trans h h2⟩

instance : IsIrrefl Char charLt := ⟨fun _ h => Nat.lt_irrefl _ h⟩

instance : IsStrictTotalOrder Char charLt where

/-- Lexicographic comparison of two strings by code point: the Python string `<`
that `sort_values` applies to `TeamName` cells. -/
def strLexLt (s t : String) : Prop :=
  List.Lex charLt s.data t.data

instance : DecidableRel strLexLt := fun s t => List.Lex.decidableRel charLt s.data t.data

/-- Strict order on the `TeamName` sort key: strings lexicographically, a NaN
team after every string (`na_position='last'`). -/
def teamLt : Option String → Option String → Prop
  | some s, some t => strLexLt s t
  | some _, none => True
  | none, _ => False

instance : DecidableRel teamLt := fun a b =>
  match a, b with
  | some s, some t => inferInstanceAs (Decidable (strLexLt s t))
  | some _, none => inferInstanceAs (Decidable True)
  | none, some _ => inferInstanceAs (Decidable False)
  | none, none => inferInstanceAs (Decidable False)

/-- The row order of `deg_df.sort_values(by=['TeamName', 'Compound'])` (line
140): by team name first, then by the compound category code, NaN keys last. -/
def rowLE (a b : DegOutRow) : Prop :=
  teamLt a.teamName b.teamName ∨
    (a.teamName = b.teamName ∧ compoundRank a.compound ≤ compoundRank b.compound)

instance : DecidableRel rowLE := fun _ _ =>
  inferInstanceAs (Decidable (_ ∨ _))

theorem teamLt_trans : ∀ {a b c : Option String}, teamLt a b → teamLt b c → teamLt a c
  | some _, some _, some _, h, h2 => trans_of (List.Lex charLt) h h2
  | some _, some _, none, _, _ => trivial
  | some _, none, some _, _, h2 => False.elim h2
  | some _, none, none, _, h2 => False.elim h2
  | none, _, _, h, _ => False.elim h

theorem teamLt_trichotomous (a b : Option String) : teamLt a b ∨ a = b ∨ teamLt b a := by
  match a, b with
  | some s, some t =>
    rcases trichotomous_of (List.Lex charLt) s.data t.data with h | h | h
    · exact Or.inl h
    · exact Or.inr (Or.inl (by rw [show s = t from String.ext h]))
    · exact Or.inr (Or.inr h)
  | some _, none => exact Or.inl trivial
  | none, some _ => exact Or.inr (Or.inr trivial)
  | none, none => exact Or.inr (Or.inl rfl)

theorem teamLt_irrefl : ∀ (a : Option String), ¬ teamLt a a
  | some s => irrefl_of (List.Lex charLt) s.data
  | none => fun h => h

instance : IsTotal DegOutRow rowLE := by
  refine ⟨fun a b => ?_⟩
  rcases teamLt_trichotomous a.teamName b.teamName with h | h | h
  · exact Or.inl (Or.inl h)
  · rcases Nat.le_total (compoundRank a.compound) (compoundRank b.compound) with h2 | h2
    · exact Or.inl (Or.inr ⟨h, h2⟩)
    · exact Or.inr (Or.inr ⟨h.symm, h2⟩)
  · exact Or.inr (Or.inl h)

instance : IsTrans DegOutRow rowLE := by
  refine ⟨fun a b c h h2 => ?_⟩
  rcases h with h | ⟨he, hr⟩
  · rcases h2 with h2 | ⟨he2, _⟩
    · exact Or.inl (teamLt_trans h h2)
    · exact Or.inl (he2 ▸ h)
  · rcases h2 with h2 | ⟨he2, hr2⟩
    · exact Or.inl (he ▸ h2)
    · exact Or.inr ⟨he.trans he2, Nat.le_trans hr hr2⟩

def sortRows (l : List DegOutRow) : List DegOutRow :=
  List.insertionSort rowLE l

deriving instance DecidableEq for Except

/-- How a call can fail: a missing required column (a pandas `KeyError` on an
input table), or the `KeyError: 'Compound'` that line 139 raises on the
column-less `pd.DataFrame([])` built from an empty `deg_data`. -/
inductive DegError where
  | schemaMismatch
  | emptyOutputKeyError
  deriving DecidableEq, Repr

/-- The laps table with per-column presence flags: pandas raises `KeyError` when
a required column is missing, which the flags make explicit. -/
structure LapsTable where
  hasDriver : Bool
  hasLapNumber : Bool
  hasLapTime : Bool
  hasPitInTime : Bool
  hasPitOutTime : Bool
  hasTrackStatus : Bool
  hasCompound : Bool
  hasTyreLife : Bool
  rows : List LapRow
  deriving DecidableEq, Repr

structure ResultsTable where
  hasAbbreviation : Bool
  hasTeamName : Bool
  rows : List ResultRow
  deriving DecidableEq, Repr

def lapsSchemaOk (t : LapsTable) : Bool :=
  t.hasDriver && t.hasLapNumber && t.hasLapTime && t.hasPitInTime &&
    t.hasPitOutTime && t.hasTrackStatus && t.hasCompound && t.hasTyreLife

def resultsSchemaOk (t : ResultsTable) : Bool :=
  t.hasAbbreviation && t.hasTeamName

/-- The whole of `calculate_advanced_deg` (app.py lines 94-142). A missing
required column is a pandas `KeyError` (schema mismatch). When `deg_data` is
empty, `pd.DataFrame([])` has no columns, so reading `deg_df['Compound']` on
line 139 raises `KeyError: 'Compound'` — modelled as `emptyOutputKeyError`.
Otherwise the categorical cast and the `sort_values` run and the frame is
returned. -/
def calculate_advanced_deg (lapsT : LapsTable) (resultsT : ResultsTable) :
    Except DegError (List DegOutRow) :=
  if resultsSchemaOk resultsT && lapsSchemaOk lapsT then
    if (degDataOf lapsT.rows resultsT.rows).isEmpty then Except.error DegError.emptyOutputKeyError
    else Except.ok (sortRows ((degDataOf lapsT.rows resultsT.rows).map castRow))
  else Except.error DegError.schemaMismatch

def fullLapsTable (rows : List LapRow) : LapsTable :=
  ⟨true, true, true, true, true, true, true, true, rows⟩

def fullResultsTable (rows : List ResultRow) : ResultsTable :=
  ⟨true, true, rows⟩

/-- A clean synthetic lap for one driver: lap number `n`, tyre age `age`, raw
lap time chosen so that the fully corrected time is `base + slope * age`. -/
def mkCleanLap (drv : String) (comp : String) (base slope age n : ℚ) : LapRow :=
  { driver := drv, lapNumber := n,
    lapTime := some (base + slope * age + fuelPenaltySec n - trackEvoGainSec n),
    pitInTime := none, pitOutTime := none, trackStatus := "1",
    compound := comp, tyreLife := some age }

/-- The 15-lap synthetic scenario of the spec: team Alpha, compound SOFT, tyre
age 1..15, corrected lap time `90 + 0.05 * age`. -/
def synthLapRows : List LapRow :=
  (List.range 15).map (fun i => mkCleanLap "ALP" "SOFT" 90 0.05 ((i : ℚ) + 1) ((i : ℚ) + 2))

def synthResultRows : List ResultRow := [⟨"ALP", "Alpha"⟩]

/-- Ten clean laps for (Alpha, SOFT): exactly at, not above, the threshold. -/
def tenLapRows : List LapRow :=
  (List.range 10).map (fun i => mkCleanLap "ALP" "SOFT" 90 0.05 ((i : ℚ) + 1) ((i : ℚ) + 2))

/-- Two teams with eleven clean laps each, on different compounds. -/
def twoTeamLapRows : List LapRow :=
  ((List.range 11).map (fun i => mkCleanLap "BET" "HARD" 80 0.1 ((i : ℚ) + 1) ((i : ℚ) + 2))) ++
    ((List.range 11).map (fun i => mkCleanLap "ALP" "SOFT" 90 0.05 ((i : ℚ) + 1) ((i : ℚ) + 2)))

def twoTeamResultRows : List ResultRow := [⟨"BET", "Beta"⟩, ⟨"ALP", "Alpha"⟩]

/-- Eleven clean laps on a compound outside the canonical five. -/
def unknownCompLapRows : List LapRow :=
  (List.range 11).map (fun i => mkCleanLap "ZEB" "TEST" 100 0.1 ((i : ℚ) + 1) ((i : ℚ) + 2))

def unknownCompResultRows : List ResultRow := [⟨"ZEB", "Zebra"⟩]

/-- A lap whose driver has no results entry, next to a fully matched grid. -/
def ghostLapRows : List LapRow :=
  mkCleanLap "GHO" "SOFT" 95 0.02 1 2 :: synthLapRows

def ghostJoined : JoinedLap := ⟨mkCleanLap "GHO" "SOFT" 95 0.02 1 2, none⟩

def synthJoined : JoinedLap := ⟨mkCleanLap "ALP" "SOFT" 90 0.05 1 2, some "Alpha"⟩

theorem teamMatches_none_left (team : Option String) : teamMatches none team = false := by
  cases team <;> rfl

theorem teamMatches_eq_some {t team : Option String} (h : teamMatches t team = true) :
    ∃ a, t = some a ∧ team = some a := by
  match t, team, h with
  | some a, some b, h => exact ⟨a, rfl, by rw [beq_iff_eq.1 h]⟩

theorem groupSubset_mem {cl : List JoinedLap} {team : Option String} {comp : String}
    {j : JoinedLap} (h : j ∈ groupSubset cl team comp) :
    j ∈ cl ∧ teamMatches j.teamName team = true ∧ j.lap.compound = comp ∧
      j.lap.tyreLife.isSome = true := by
  have h1 := List.mem_filter.1 h
  have h2 := List.mem_filter.1 h1.1
  have h3 := h2.2
  rw [Bool.and_eq_true] at h3
  exact ⟨h2.1, h3.1, beq_iff_eq.1 h3.2, h1.2⟩

theorem groupRow_eq_some {cl : List JoinedLap} {team : Option String} {comp : String}
    {r : DegRow} (h : groupRow cl team comp = some r) :
    10 < (groupSubset cl team comp).length ∧
      r = { teamName := team, compound := comp,
            degRate := olsSlope ((groupSubset cl team comp).map
              (fun j => (j.lap.tyreLife.getD 0, fullyCorrectedOf j.lap))),
            lapsAnalyzed := (groupSubset cl team comp).length } := by
  by_cases hlen : 10 < (groupSubset cl team comp).length
  · unfold groupRow at h
    rw [if_pos hlen] at h
    injection h with h
    exact ⟨hlen, h.symm⟩
  · unfold groupRow at h
    rw [if_neg hlen] at h
    cases h

theorem mem_degData {cl : List JoinedLap} {r : DegRow} (h : r ∈ degData cl) :
    ∃ team comp, groupRow cl team comp = some r := by
  rcases List.mem_flatMap.1 h with ⟨team, _, h2⟩
  rcases List.mem_filterMap.1 h2 with ⟨comp, _, h3⟩
  exact ⟨team, comp, h3⟩

theorem degData_mem {cl : List JoinedLap} {team : Option String} {comp : String} {r : DegRow}
    (hteam : team ∈ uniqueFirst (cl.map (fun j => j.teamName)))
    (hcomp : comp ∈ uniqueFirst (cl.map (fun j => j.lap.compound)))
    (hrow : groupRow cl team comp = some r) : r ∈ degData cl :=
  List.mem_flatMap.2 ⟨team, hteam, List.mem_filterMap.2 ⟨comp, hcomp, hrow⟩⟩

theorem calculate_ok_elim {lapsT : LapsTable} {resultsT : ResultsTable} {out : List DegOutRow}
    (h : calculate_advanced_deg lapsT resultsT = Except.ok out) :
    out = sortRows ((degDataOf lapsT.rows resultsT.rows).map castRow) := by
  unfold calculate_advanced_deg at h
  by_cases h1 : (resultsSchemaOk resultsT && lapsSchemaOk lapsT) = true
  · rw [if_pos h1] at h
    by_cases h2 : (degDataOf lapsT.rows resultsT.rows).isEmpty = true
    · rw [if_pos h2] at h
      exact Except.noConfusion h
    · rw [if_neg h2] at h
      injection h with h
      exact h.symm
  · rw [if_neg h1] at h
    exact Except.noConfusion h

theorem mem_ok_output {lapsT : LapsTable} {resultsT : ResultsTable} {out : List DegOutRow}
    (hout : calculate_advanced_deg lapsT resultsT = Except.ok out) {r : DegOutRow}
    (hr : r ∈ out) : ∃ r0 ∈ degDataOf lapsT.rows resultsT.rows, r = castRow r0 := by
  rw [calculate_ok_elim hout] at hr
  rcases List.mem_map.1 ((List.mem_insertionSort rowLE).1 hr) with ⟨r0, hr0, he⟩
  exact ⟨r0, hr0, he.symm⟩

theorem out_compound_canonical {lapsT : LapsTable} {resultsT : ResultsTable}
    {out : List DegOutRow} (hout : calculate_advanced_deg lapsT resultsT = Except.ok out)
    {r : DegOutRow} (hr : r ∈ out) {c : String} (hc : r.compound = some c) :
    c ∈ compound_order := by
  rcases mem_ok_output hout hr with ⟨r0, _, rfl⟩
  by_cases hmem : r0.compound ∈ compound_order
  · have : castCompound r0.compound = some r0.compound := by
      unfold castCompound
      rw [if_pos hmem]
    rw [castRow] at hc
    simp only [this] at hc
    injection hc with hc
    rw [← hc]
    exact hmem
  · have : castCompound r0.compound = none := by
      unfold castCompound
      rw [if_neg hmem]
    rw [castRow] at hc
    simp only [this] at hc
    exact Option.noConfusion hc

theorem joinOne_mem {results : List ResultRow} {l : LapRow} {j : JoinedLap}
    (h : j ∈ joinOne results l) :
    j.lap = l ∧ (j.teamName = none ∨
      ∃ r ∈ results, r.abbreviation = l.driver ∧ j.teamName = some r.teamName) := by
  unfold joinOne at h
  cases hfil : results.filter (fun r => r.abbreviation == l.driver) with
  | nil =>
    rw [hfil] at h
    rcases List.mem_singleton.1 h with rfl
    exact ⟨rfl, Or.inl rfl⟩
  | cons r rs =>
    rw [hfil] at h
    rcases List.mem_map.1 h with ⟨r2, hr2, rfl⟩
    have hr2f : r2 ∈ results.filter (fun r => r.abbreviation == l.driver) := by
      rw [hfil]
      exact hr2
    have h3 := List.mem_filter.1 hr2f
    exact ⟨rfl, Or.inr ⟨r2, h3.1, beq_iff_eq.1 h3.2, rfl⟩⟩

/-- Claim C1: the claim says that when no (team, compound) group has strictly
more than 10 qualifying laps the estimator returns an empty output sequence
without failing. The code does not: with `deg_data` empty, `pd.DataFrame([])`
has no columns and line 139 (`deg_df['Compound'].astype(...)`) raises
`KeyError: 'Compound'`. This theorem evaluates the model at two such inputs —
a group with exactly 10 qualifying laps, and empty tables — and shows the call
ends in the error, not in `Except.ok []`. -/
theorem c1_below_threshold_raises_key_error :
    calculate_advanced_deg (fullLapsTable tenLapRows) (fullResultsTable synthResultRows) =
        Except.error DegError.emptyOutputKeyError ∧
      calculate_advanced_deg (fullLapsTable []) (fullResultsTable []) =
        Except.error DegError.emptyOutputKeyError := by
  constructor
  · decide
  · decide

/-- Claim C2: every emitted row analyzed strictly more than 10 laps, and a
(team, compound) group with exactly 10 qualifying laps (non-null tyre age and
corrected time) yields no `deg_data` row at all. -/
theorem c2_min_sample_threshold (lapsT : LapsTable) (resultsT : ResultsTable) :
    (∀ out, calculate_advanced_deg lapsT resultsT = Except.ok out →
      ∀ r ∈ out, 10 < r.lapsAnalyzed) ∧
    (∀ team comp,
      (groupSubset (cleanLapsFrom lapsT.rows resultsT.rows) team comp).length = 10 →
      ∀ r ∈ degDataOf lapsT.rows resultsT.rows,
        ¬(r.teamName = team ∧ r.compound = comp)) := by
  constructor
  · intro out hout r hr
    rcases mem_ok_output hout hr with ⟨r0, hr0, rfl⟩
    rcases mem_degData hr0 with ⟨team, comp, hrow⟩
    rcases groupRow_eq_some hrow with ⟨hlen, rfl⟩
    exact hlen
  · intro team comp hlen r hr hcontra
    rcases mem_degData hr with ⟨team2, comp2, hrow⟩
    rcases groupRow_eq_some hrow with ⟨hlen2, rfl⟩
    rcases hcontra with ⟨h1, h2⟩
    rw [show team2 = team from h1, show comp2 = comp from h2] at hlen2
    rw [hlen] at hlen2
    exact absurd hlen2 (by decide)

/-- Witness for C2 at the 15-lap synthetic input. -/
theorem c2_min_sample_threshold_witness :
    (calculate_advanced_deg (fullLapsTable synthLapRows) (fullResultsTable synthResultRows) =
        Except.ok [⟨some "Alpha", some "SOFT", 1/20, 15⟩]) ∧
      (∀ r ∈ [(⟨some "Alpha", some "SOFT", 1/20, 15⟩ : DegOutRow)], 10 < r.lapsAnalyzed) :=
  ⟨by decide,
    (c2_min_sample_threshold (fullLapsTable synthLapRows) (fullResultsTable synthResultRows)).1
      _ (by decide)⟩

/-- Claim C3: a lap enters a group's sample only if its pit-in time is absent,
its pit-out time is absent, its track status is "1", its lap number exceeds 1
and its lap time is present; in particular a lap with a non-null pit-in time
never contributes to any group's sample count. -/
theorem c3_clean_lap_filter (laps : List LapRow) (results : List ResultRow)
    (team : Option String) (comp : String) :
    ∀ j ∈ groupSubset (cleanLapsFrom laps results) team comp,
      j.lap.pitInTime = none ∧ j.lap.pitOutTime = none ∧ j.lap.trackStatus = "1" ∧
        (1 : ℚ) < j.lap.lapNumber ∧ j.lap.lapTime ≠ none := by
  intro j hj
  have hcl := (groupSubset_mem hj).1
  have hpred := (List.mem_filter.1 hcl).2
  unfold cleanPred at hpred
  simp only [Bool.and_eq_true, Option.isNone_iff_eq_none, beq_iff_eq,
    decide_eq_true_eq, Option.isSome_iff_ne_none] at hpred
  exact ⟨hpred.1.1.1.1, hpred.1.1.1.2, hpred.1.1.2, hpred.1.2, hpred.2⟩

/-- Witness for C3 at a concrete clean lap of the synthetic input. -/
theorem c3_clean_lap_filter_witness :
    (synthJoined ∈ groupSubset (cleanLapsFrom synthLapRows synthResultRows)
        (some "Alpha") "SOFT") ∧
      (synthJoined.lap.pitInTime = none ∧ synthJoined.lap.pitOutTime = none ∧
        synthJoined.lap.trackStatus = "1" ∧ (1 : ℚ) < synthJoined.lap.lapNumber ∧
        synthJoined.lap.lapTime ≠ none) :=
  ⟨by decide,
    c3_clean_lap_filter synthLapRows synthResultRows (some "Alpha") "SOFT"
      synthJoined (by decide)⟩

/-- Claim C4: for a clean lap with lap number n and lap time t, the fuel load is
110.0 - 1.6*n kg, the fuel penalty is (110.0 - 1.6*n) * 0.03 s, the track
evolution gain is (n - 1) * 0.01 s, and the fully corrected lap time is
t - fuel penalty + track evolution gain. -/
theorem c4_correction_formulas (n t : ℚ) :
    fuelLoadKG n = 110.0 - 1.6 * n ∧
      fuelPenaltySec n = (110.0 - 1.6 * n) * 0.03 ∧
      trackEvoGainSec n = (n - 1) * 0.01 ∧
      fullyCorrectedLapTimeSeconds n t = t - fuelPenaltySec n + trackEvoGainSec n := by
  refine ⟨?_, ?_, rfl, rfl⟩
  · unfold fuelLoadKG STARTING_FUEL_KG FUEL_BURN_RATE_KG_PER_LAP
    ring
  · unfold fuelPenaltySec fuelLoadKG STARTING_FUEL_KG FUEL_BURN_RATE_KG_PER_LAP
      FUEL_EFFECT_SEC_PER_KG
    ring

/-- Claim C5: the returned rows are sorted by team name (strings compared
lexicographically by code point, a NaN key last) and, within a team, by the
compound category code in the fixed order SOFT, MEDIUM, HARD, INTERMEDIATE,
WET (NaN compound last). -/
theorem c5_output_sorted (lapsT : LapsTable) (resultsT : ResultsTable)
    (out : List DegOutRow)
    (hout : calculate_advanced_deg lapsT resultsT = Except.ok out) :
    out.Pairwise rowLE := by
  rw [calculate_ok_elim hout]
  exact List.sorted_insertionSort rowLE _

/-- Witness for C5 at a two-team input. -/
theorem c5_output_sorted_witness :
    (calculate_advanced_deg (fullLapsTable twoTeamLapRows) (fullResultsTable twoTeamResultRows) =
        Except.ok [⟨some "Alpha", some "SOFT", 1/20, 11⟩, ⟨some "Beta", some "HARD", 1/10, 11⟩]) ∧
      ([(⟨some "Alpha", some "SOFT", 1/20, 11⟩ : DegOutRow),
        ⟨some "Beta", some "HARD", 1/10, 11⟩].Pairwise rowLE) :=
  ⟨by decide,
    c5_output_sorted (fullLapsTable twoTeamLapRows) (fullResultsTable twoTeamResultRows)
      _ (by decide)⟩

/-- Claim C6: a lap whose driver has no matching abbreviation in the results
table gets a NaN team in the left join, and such a lap is a member of no
(team, compound) group subset, so it contributes to no sample count and no
estimate; the exclusion is pure filtering, with no error path. -/
theorem c6_unmatched_driver_excluded (laps : List LapRow) (results : List ResultRow)
    (d : String) (hnm : ∀ r ∈ results, r.abbreviation ≠ d) :
    (∀ j ∈ mergeLapsResults laps results, j.lap.driver = d → j.teamName = none) ∧
      (∀ (team : Option String) (comp : String) (j : JoinedLap),
        j ∈ groupSubset (cleanLapsFrom laps results) team comp → j.lap.driver ≠ d) := by
  have key : ∀ j ∈ mergeLapsResults laps results, j.lap.driver = d → j.teamName = none := by
    intro j hj hd
    rcases List.mem_flatMap.1 hj with ⟨l, _, hjl⟩
    rcases joinOne_mem hjl with ⟨hlap, hteam⟩
    rcases hteam with h | ⟨r, hr, habbr, _⟩
    · exact h
    · rw [← hlap, hd] at habbr
      exact absurd habbr (hnm r hr)
  refine ⟨key, ?_⟩
  intro team comp j hj hd
  rcases groupSubset_mem hj with ⟨hcl, hmatch, _, _⟩
  have hmerge : j ∈ mergeLapsResults laps results := (List.mem_filter.1 hcl).1
  have hnone : j.teamName = none := key j hmerge hd
  rw [hnone] at hmatch
  rw [teamMatches_none_left team] at hmatch
  exact Bool.false_ne_true hmatch

/-- Witness for C6: a ghost driver GHO absent from the results table. -/
theorem c6_unmatched_driver_excluded_witness :
    (∀ r ∈ synthResultRows, r.abbreviation ≠ "GHO") ∧
      ((∀ j ∈ mergeLapsResults ghostLapRows synthResultRows,
          j.lap.driver = "GHO" → j.teamName = none) ∧
        (∀ (team : Option String) (comp : String) (j : JoinedLap),
          j ∈ groupSubset (cleanLapsFrom ghostLapRows synthResultRows) team comp →
            j.lap.driver ≠ "GHO")) :=
  ⟨by decide, c6_unmatched_driver_excluded ghostLapRows synthResultRows "GHO" (by decide)⟩

/-- Claim C7: a results table without the abbreviation or team-name column, or
a laps table without a required column, makes the call fail with the schema
mismatch error instead of returning a frame. -/
theorem c7_schema_mismatch_error (lapsT : LapsTable) (resultsT : ResultsTable)
    (h : resultsSchemaOk resultsT = false ∨ lapsSchemaOk lapsT = false) :
    calculate_advanced_deg lapsT resultsT = Except.error DegError.schemaMismatch := by
  have hcond : (resultsSchemaOk resultsT && lapsSchemaOk lapsT) = false := by
    rcases h with h | h <;> simp [h]
  unfold calculate_advanced_deg
  rw [hcond]
  rfl

/-- Witness for C7 at a results table lacking the team-name column. -/
theorem c7_schema_mismatch_error_witness :
    (resultsSchemaOk ⟨true, false, []⟩ = false ∨ lapsSchemaOk (fullLapsTable []) = false) ∧
      calculate_advanced_deg (fullLapsTable []) ⟨true, false, []⟩ =
        Except.error DegError.schemaMismatch :=
  ⟨Or.inl (by decide),
    c7_schema_mismatch_error (fullLapsTable []) ⟨true, false, []⟩ (Or.inl (by decide))⟩

/-- Claim C8: the estimator is a pure function of its two input tables, so two
calls on identical copies return identical results — the same rows in the same
order, hence the same row count and equal rates. -/
theorem c8_idempotent (lapsT1 : LapsTable) (resultsT1 : ResultsTable)
    (lapsT2 : LapsTable) (resultsT2 : ResultsTable)
    (h1 : lapsT1 = lapsT2) (h2 : resultsT1 = resultsT2) :
    calculate_advanced_deg lapsT1 resultsT1 = calculate_advanced_deg lapsT2 resultsT2 ∧
      (∀ o1 o2, calculate_advanced_deg lapsT1 resultsT1 = Except.ok o1 →
        calculate_advanced_deg lapsT2 resultsT2 = Except.ok o2 →
        o1 = o2 ∧ o1.length = o2.length) := by
  subst h1
  subst h2
  refine ⟨rfl, ?_⟩
  intro o1 o2 e1 e2
  rw [e1] at e2
  injection e2 with e2
  exact ⟨e2, by rw [e2]⟩

/-- Witness for C8 at the synthetic input. -/
theorem c8_idempotent_witness :
    calculate_advanced_deg (fullLapsTable synthLapRows) (fullResultsTable synthResultRows) =
      calculate_advanced_deg (fullLapsTable synthLapRows) (fullResultsTable synthResultRows) :=
  (c8_idempotent (fullLapsTable synthLapRows) (fullResultsTable synthResultRows)
    (fullLapsTable synthLapRows) (fullResultsTable synthResultRows) rfl rfl).1

/-- Claim C9: on the synthetic 15-lap input — team Alpha, compound SOFT, tyre
ages 1..15, corrected lap time 90 + 0.05 * age — the estimator returns exactly
one row, for (Alpha, SOFT), whose rate is exactly 1/20 = 0.05 and whose
laps-analyzed count is 15. -/
theorem c9_synthetic_scenario :
    calculate_advanced_deg (fullLapsTable synthLapRows) (fullResultsTable synthResultRows) =
      Except.ok [⟨some "Alpha", some "SOFT", 1/20, 15⟩] := by
  decide

/-- Claim C10: a (team, compound) group whose compound is outside the canonical
five still produces an estimate when it meets the sample threshold; the
categorical cast turns its compound into NaN (none), and in the sorted output
no row of the same team with a canonical compound comes after it. -/
theorem c10_unknown_compound_kept (laps : List LapRow) (results : List ResultRow)
    (team : Option String) (comp : String) (hcomp : comp ∉ compound_order)
    (hteam : team ∈ uniqueFirst ((cleanLapsFrom laps results).map (fun j => j.teamName)))
    (hcm : comp ∈ uniqueFirst ((cleanLapsFrom laps results).map (fun j => j.lap.compound)))
    (hlen : 10 < (groupSubset (cleanLapsFrom laps results) team comp).length)
    (out : List DegOutRow)
    (hout : calculate_advanced_deg (fullLapsTable laps) (fullResultsTable results) =
      Except.ok out) :
    ∃ r ∈ out, r.teamName = team ∧ r.compound = none ∧
      r.lapsAnalyzed = (groupSubset (cleanLapsFrom laps results) team comp).length ∧
      ∀ xs ys, out = xs ++ r :: ys → ∀ r2 ∈ ys, r2.teamName = team → r2.compound = none := by
  have hex : ∃ r0 : DegRow, groupRow (cleanLapsFrom laps results) team comp = some r0 ∧
      r0.teamName = team ∧ r0.compound = comp ∧
      r0.lapsAnalyzed = (groupSubset (cleanLapsFrom laps results) team comp).length := by
    unfold groupRow
    rw [if_pos hlen]
    exact ⟨_, rfl, rfl, rfl, rfl⟩
  obtain ⟨r0, hr0, hrt, hrc, hrl⟩ := hex
  have hmem : r0 ∈ degDataOf laps results := degData_mem hteam hcm hr0
  have hout2 := calculate_ok_elim hout
  have hcastnone : castCompound comp = none := by
    unfold castCompound
    rw [if_neg hcomp]
  have hcn : (castRow r0).compound = none := by
    show castCompound r0.compound = none
    rw [hrc]
    exact hcastnone
  refine ⟨castRow r0, ?_, ?_, hcn, ?_, ?_⟩
  · rw [hout2]
    exact (List.mem_insertionSort rowLE).2 (List.mem_map_of_mem castRow hmem)
  · show r0.teamName = team
    exact hrt
  · show r0.lapsAnalyzed = _
    exact hrl
  · intro xs ys hsplit r2 hr2 hteam2
    have hsorted : out.Pairwise rowLE := by
      rw [hout2]
      exact List.sorted_insertionSort rowLE _
    rw [hsplit] at hsorted
    have hpair : rowLE (castRow r0) r2 :=
      (List.pairwise_cons.1 (List.pairwise_append.1 hsorted).2.1).1 r2 hr2
    rcases hpair with h | ⟨-, hle⟩
    · have hltself : teamLt team team := by
        rw [hteam2] at h
        rw [show (castRow r0).teamName = r0.teamName from rfl, hrt] at h
        exact h
      exact absurd hltself (teamLt_irrefl team)
    · rw [hcn] at hle
      cases hc2 : r2.compound with
      | none => rfl
      | some c =>
        have hr2out : r2 ∈ out := by
          rw [hsplit]
          exact List.mem_append.2 (Or.inr (List.mem_cons_of_mem _ hr2))
        have hcan : c ∈ compound_order := out_compound_canonical hout hr2out hc2
        have hidx : compound_order.indexOf c < compound_order.length :=
          List.indexOf_lt_length.2 hcan
        rw [hc2] at hle
        simp only [compoundRank] at hle
        omega

/-- Witness for C10 at an eleven-lap group on the non-canonical compound TEST. -/
theorem c10_unknown_compound_kept_witness :
    ("TEST" ∉ compound_order) ∧
      (∃ r ∈ [(⟨some "Zebra", none, 1/10, 11⟩ : DegOutRow)], r.teamName = some "Zebra" ∧
        r.compound = none ∧
        r.lapsAnalyzed =
          (groupSubset (cleanLapsFrom unknownCompLapRows unknownCompResultRows)
            (some "Zebra") "TEST").length ∧
        ∀ xs ys, [(⟨some "Zebra", none, 1/10, 11⟩ : DegOutRow)] = xs ++ r :: ys →
          ∀ r2 ∈ ys, r2.teamName = some "Zebra" → r2.compound = none) :=
  ⟨by decide,
    c10_unknown_compound_kept unknownCompLapRows unknownCompResultRows (some "Zebra") "TEST"
      (by decide) (by decide) (by decide) (by decide) _ (by decide)⟩
